import Mathlib

/-!
Verification of the Legal-Platform booking / escrow / incentive core.

A shallow embedding of the parts of `core/views.py`, `core/models.py`,
`core/payment_service.py` and `core/incentive_rules.py` that govern the
booking lifecycle: slot availability and creation, payment verification,
webhook capture, escrow release, refunds, reviews, incentive points and
reward tiers.  Django model rows become Lean structures, view functions
become pure functions from an explicit state to a (response, state) pair,
external services (the Razorpay client, HMAC-SHA256) are passed in as
parameters, and `timezone.now()` is an explicit `now` argument.  Decimal
and SQL-aggregate arithmetic is modelled with `ℚ`; where Python converts
a `Decimal` through a binary64 `float` (paise conversion in
`payment_service.create_order`) the IEEE-754 double rounding is modelled
exactly.
-/

set_option maxRecDepth 10000

namespace LegalPlatform

/-! ## Reward tiers (`core/incentive_rules.py`) -/

/-- One entry of `REWARD_TIERS`.  The `benefits`, `color` and
`badge_class` fields are constant display strings that no computation
reads, so they are elided. -/
structure Tier where
  name : String
  min_points : Int
deriving Repr, DecidableEq, Inhabited

/-- The `REWARD_TIERS` from `core/incentive_rules.py` (lines 113-160). -/
def REWARD_TIERS : List Tier :=
  [⟨"Bronze", 0⟩, ⟨"Silver", 500⟩, ⟨"Gold", 1500⟩, ⟨"Platinum", 3000⟩]

/-- The `get_provider_tier` (`core/incentive_rules.py` lines 163-169):
sort the tiers by `min_points` in decreasing order, return the first
whose `min_points` does not exceed `points`, falling back to
`REWARD_TIERS[0]`. -/
def get_provider_tier (points : Int) : Tier :=
  let sorted_tiers :=
    List.insertionSort (fun a b => b.min_points ≤ a.min_points) REWARD_TIERS
  match sorted_tiers.find? (fun t => t.min_points ≤ points) with
  | some t => t
  | none => REWARD_TIERS.headI

/-- The `get_next_tier` (`core/incentive_rules.py` lines 172-181): the first
tier, in the declared (ascending) order, whose `min_points` strictly
exceeds `current_points`, paired with the missing points; `none` once no
tier is above.  (The source also calls `get_provider_tier` and discards
the result.) -/
def get_next_tier (current_points : Int) : Option (Tier × Int) :=
  match REWARD_TIERS.find? (fun t => current_points < t.min_points) with
  | some t => some (t, t.min_points - current_points)
  | none => none

/-! ## Data model (`core/models.py`)

Rows are Lean structures; only the fields the verified views read or
write are kept.  Dates are day indices counted from a Monday (so
`weekday = date % 7`, Python's Monday-is-0 convention), times are
minutes since midnight, timestamps are abstract `Nat` instants, and
`DecimalField`/`FloatField` arithmetic is carried out in `ℚ`. -/

/-- The `ProviderProfile` (`core/models.py` lines 38-87).  Note that the
model defines `completed_cases` and `incentive_points` but no
`cases_won` field — this matters for `complete_booking` below. -/
structure ProviderProfile where
  id : String
  userId : String
  rating : ℚ
  review_count : Int
  completed_cases : Int
  hourly_rate : Option Int
  incentive_points : Int
deriving Repr, DecidableEq

/-- The `ServiceListing` (`core/models.py`): only `price` is read by the
booking flow. -/
structure ServiceListing where
  id : String
  price : ℚ
deriving Repr, DecidableEq

/-- The `Booking` (`core/models.py` lines 215-288). -/
structure Booking where
  id : String
  userId : String
  providerId : String
  consultation_type : String
  description : String
  status : String
  amount : ℚ
  escrow_status : String
  payment_id : Option String
  payment_order_id : Option String
  payment_signature : Option String
  is_paid : Bool
  paid_at : Option Nat
  scheduled_date : Option Nat
  scheduled_time : Option Nat
  duration_minutes : Int
  completed_at : Option Nat
deriving Repr, DecidableEq

/-- The `ProviderAvailability` (`core/models.py` lines 662-708):
`start_time`/`end_time` in minutes since midnight. -/
structure ProviderAvailability where
  providerId : String
  day_of_week : Nat
  start_time : Nat
  end_time : Nat
  is_available : Bool
deriving Repr, DecidableEq

/-- The `ProviderTimeOff` (`core/models.py`): a full-day absence. -/
structure ProviderTimeOff where
  providerId : String
  date : Nat
deriving Repr, DecidableEq

/-- The `Booking.STATUS_CHOICES` keys that are neither `cancelled` nor
`completed` — the "active" statuses of claim C1. -/
def activeStatuses : List String :=
  ["pending", "payment_pending", "confirmed", "accepted", "in-progress"]

/-! ## Booking creation (`core/views.py` lines 629-768) -/

/-- The responses `htmx_create_booking` can produce, abstracted from
their HTML bodies. -/
inductive CreateBookingResponse where
  | loginRequired
  | slotTaken
  | paymentForm (bookingId : String) (amount : ℚ)
  | bookingFailed (msg : String)
deriving Repr, DecidableEq

/-- The statuses whose presence at the requested slot makes
`htmx_create_booking` refuse (`core/views.py` line 673).  `in-progress`
is not among them. -/
def createBookingBlockingStatuses : List String :=
  ["pending", "payment_pending", "confirmed", "accepted"]

/-- The `htmx_create_booking` (`core/views.py` lines 629-768).  The request
is modelled by its resolved pieces: `authenticated`/`userId` for
`request.user`, the provider row the id lookup found, and the posted
service id already resolved to an optional `ServiceListing` row.  The
posted date/time arrive parsed (the view fills in tomorrow/'10:00' when
they are absent before this logic runs) and `newId` stands for the
fresh `uuid4` primary key.  `provider.hourly_rate or Decimal('1500.00')`
treats both a null and a zero rate as falsy. -/
def htmx_create_booking (authenticated : Bool) (userId : String)
    (provider : ProviderProfile) (service : Option ServiceListing)
    (notes consultation_type : String) (scheduled_date scheduled_time : Nat)
    (newId : String) (bookings : List Booking) :
    CreateBookingResponse × List Booking :=
  if ¬ authenticated then (.loginRequired, bookings)
  else
    let existing_booking := bookings.any fun b =>
      b.providerId == provider.id && b.scheduled_date == some scheduled_date &&
      b.scheduled_time == some scheduled_time &&
      createBookingBlockingStatuses.contains b.status
    if existing_booking then (.slotTaken, bookings)
    else
      let amount : ℚ :=
        match service with
        | some s => s.price
        | none =>
          match provider.hourly_rate with
          | some r => if r ≠ 0 then (r : ℚ) else 1500
          | none => 1500
      let booking : Booking :=
        { id := newId, userId := userId, providerId := provider.id,
          consultation_type := consultation_type, description := notes,
          status := "payment_pending", amount := amount,
          escrow_status := "pending", payment_id := none,
          payment_order_id := none, payment_signature := none,
          is_paid := false, paid_at := none,
          scheduled_date := some scheduled_date,
          scheduled_time := some scheduled_time,
          duration_minutes := 30, completed_at := none }
      (.paymentForm newId amount, bookings ++ [booking])

/-! ## Availability checking (`core/views.py` lines 531-625) -/

/-- The `%H:%M` formatting of a minutes-since-midnight time
(`current_time.strftime('%H:%M')`). -/
def fmtHHMM (t : Nat) : String :=
  (if t / 60 < 10 then "0" ++ toString (t / 60) else toString (t / 60)) ++
    ":" ++
    (if t % 60 < 10 then "0" ++ toString (t % 60) else toString (t % 60))

/-- The statuses `htmx_check_availability` counts as occupying a slot
(`core/views.py` line 578). -/
def bookedStatuses : List String :=
  ["pending", "payment_pending", "confirmed", "accepted", "in-progress"]

/-- The times visited by the `while current_time < slot.end_time` loop
with its 30-minute stride (`core/views.py` lines 584-591).  The source
advances the clock through `datetime.combine`/`timedelta`, which wraps
at midnight, so for a window whose `end_time` lies after 23:30 the
source loop never terminates; the embedding is the terminating
behaviour, and the availability theorem assumes `end_time ≤ 1410`
(23:30) where the two agree. -/
def slotTimes (current_time end_time : Nat) : List Nat :=
  if current_time < end_time then
    current_time :: slotTimes (current_time + 30) end_time
  else []
termination_by end_time - current_time

/-- The body of the slot loop (`core/views.py` lines 583-591): walk one
window, appending each time not in `booked_times`, formatted `%H:%M`. -/
def generateSlots (booked_times : List Nat) (current_time end_time : Nat) :
    List String :=
  if current_time < end_time then
    (if booked_times.contains current_time then []
     else [fmtHHMM current_time]) ++
      generateSlots booked_times (current_time + 30) end_time
  else []
termination_by end_time - current_time

/-- The `default_slots` of `core/views.py` line 595 as times; their
`%H:%M` strings are recovered with `fmtHHMM`, and line 596 parses each
string back to a time before comparing with `booked_times`, which is
the comparison made here. -/
def default_slot_times : List Nat := [540, 600, 660, 840, 900, 960, 1020]

/-- The responses `htmx_check_availability` can produce, abstracted
from their HTML bodies. -/
inductive AvailabilityResponse where
  | selectDateFirst
  | providerUnavailable
  | slots (options : List String)
  | providerNotFound
  | errorLoadingSlots
deriving Repr, DecidableEq

/-- The `htmx_check_availability` (`core/views.py` lines 531-625).  Dates
are day indices from a Monday, so `weekday()` is `selected_date % 7`;
the provider row found by the id lookup is passed in, and the two
querysets are the corresponding filters over explicit row lists.  The
per-window loop accumulates into one `available_slots` list, modelled
by the `foldl`. -/
def htmx_check_availability (provider : ProviderProfile)
    (availabilityRows : List ProviderAvailability)
    (timeOffRows : List ProviderTimeOff) (bookings : List Booking)
    (selected_date : Nat) : AvailabilityResponse :=
  let day_of_week := selected_date % 7
  let availability := availabilityRows.filter fun a =>
    a.providerId == provider.id && a.day_of_week == day_of_week &&
      a.is_available
  let has_time_off := timeOffRows.any fun t =>
    t.providerId == provider.id && t.date == selected_date
  if has_time_off then .providerUnavailable
  else
    let booked_times := (bookings.filter fun b =>
      b.providerId == provider.id &&
      b.scheduled_date == some selected_date &&
      bookedStatuses.contains b.status).filterMap Booking.scheduled_time
    let available_slots := availability.foldl
      (fun acc w => acc ++ generateSlots booked_times w.start_time w.end_time)
      []
    let available_slots :=
      if available_slots.isEmpty then
        (default_slot_times.filter fun t => ! booked_times.contains t).map
          fmtHHMM
      else available_slots
    .slots available_slots

/-- Claim-side (C7): the arithmetic progression of times obtained by
stepping in 30-minute increments from `start_time` up to but excluding
`end_time`. -/
def steppedTimes (start_time end_time : Nat) : List Nat :=
  (List.range ((end_time - start_time + 29) / 30)).map
    fun k => start_time + 30 * k

/-- Claim-side (C7): the provider's booked times on a date, in the five
occupying statuses. -/
def c7_bookedTimes (provider : ProviderProfile) (bookings : List Booking)
    (selected_date : Nat) : List Nat :=
  (bookings.filter fun b =>
    b.providerId == provider.id && b.scheduled_date == some selected_date &&
    bookedStatuses.contains b.status).filterMap Booking.scheduled_time

/-- Claim-side (C7): the stepped times of the date's available weekday
windows, minus the booked times, formatted `%H:%M`. -/
def c7_offeredSlots (provider : ProviderProfile)
    (rows : List ProviderAvailability) (bookings : List Booking)
    (selected_date : Nat) : List String :=
  (((rows.filter fun a =>
      a.providerId == provider.id && a.day_of_week == selected_date % 7 &&
        a.is_available).flatMap fun w =>
      steppedTimes w.start_time w.end_time).filter fun t =>
    ! (c7_bookedTimes provider bookings selected_date).contains t).map fmtHHMM

/-- Claim-side (C7): the default slots minus the booked times. -/
def c7_defaultSlots (provider : ProviderProfile) (bookings : List Booking)
    (selected_date : Nat) : List String :=
  (default_slot_times.filter fun t =>
    ! (c7_bookedTimes provider bookings selected_date).contains t).map fmtHHMM

/-- C7 fixture: a provider row. -/
def c7_provider : ProviderProfile :=
  { id := "p7", userId := "lawyer7", rating := 0, review_count := 0,
    completed_cases := 0, hourly_rate := some 2000, incentive_points := 0 }

/-- C7 fixture: a Monday availability window 09:00-11:00. -/
def c7_window : ProviderAvailability :=
  { providerId := "p7", day_of_week := 0, start_time := 540,
    end_time := 660, is_available := true }

/-- C7 fixture: a confirmed booking of the provider on day 14 at
10:00. -/
def c7_booked : Booking :=
  { id := "bk7", userId := "carol", providerId := "p7",
    consultation_type := "video", description := "",
    status := "confirmed", amount := 2000, escrow_status := "held",
    payment_id := none, payment_order_id := none,
    payment_signature := none, is_paid := true, paid_at := some 9,
    scheduled_date := some 14, scheduled_time := some 600,
    duration_minutes := 30, completed_at := none }

/-- C1 fixture: a provider row. -/
def c1_provider : ProviderProfile :=
  { id := "p1", userId := "lawyer1", rating := 0, review_count := 0,
    completed_cases := 0, hourly_rate := none, incentive_points := 0 }

/-- C1 fixture: an `in-progress` (active) booking occupying day 10,
10:00. -/
def c1_existing : Booking :=
  { id := "bk1", userId := "bob", providerId := "p1",
    consultation_type := "video", description := "",
    status := "in-progress", amount := 1500, escrow_status := "held",
    payment_id := none, payment_order_id := none,
    payment_signature := none, is_paid := true, paid_at := some 5,
    scheduled_date := some 10, scheduled_time := some 600,
    duration_minutes := 30, completed_at := none }

/-- C1 fixture: a `pending` booking occupying day 10, 10:00. -/
def c1_pending : Booking :=
  { c1_existing with
    id := "bk3", status := "pending", is_paid := false,
    paid_at := none, escrow_status := "pending" }

/-! ## A binary64 model for Python `float`

`payment_service.create_order` computes `int(float(amount) * 100)`:
the `Decimal` amount is converted to a CPython `float` (an IEEE-754
binary64 value) and multiplied in floating point before truncation.
This is modelled with an exact softfloat: a nonnegative double is a
mantissa/exponent pair of value `m * 2 ^ (e - 52)` with
`2 ^ 52 ≤ m < 2 ^ 53` for normal values, conversions round to 53
significant bits, nearest, ties to even, and multiplication is
correctly rounded.  Only the nonnegative finite range matters for
rupee amounts, so negatives map to 0 and overflow to infinity is not
modelled. -/

/-- Fuelled base-2 logarithm (the fuel makes it structurally
recursive; `natLog2 n` uses fuel `n`, which always suffices). -/
def log2Fuel : Nat → Nat → Nat
  | 0, _ => 0
  | fuel + 1, n => if 2 ≤ n then log2Fuel fuel (n / 2) + 1 else 0

/-- The bit length of `n` minus one: the `L` with `2 ^ L ≤ n` when
`n > 0`. -/
def natLog2 (n : Nat) : Nat := log2Fuel n n

/-- Round the fraction `a / b` (with `b > 0`) to the nearest integer,
ties to even. -/
def roundScaled (a b : Nat) : Nat :=
  let q := a / b
  let r := a % b
  if 2 * r < b then q
  else if 2 * r > b then q + 1
  else if q % 2 = 0 then q else q + 1

/-- A nonnegative IEEE-754 binary64 value `m * 2 ^ (e - 52)`. -/
structure F64 where
  m : Nat
  e : Int
deriving Repr, DecidableEq

/-- The rational value of a softfloat. -/
def F64.toRat (x : F64) : ℚ := (x.m : ℚ) * (2 : ℚ) ^ (x.e - 52)

/-- Normalize the exact value `a * 2 ^ k` (with `a > 0`) to 53
significant bits, rounding to nearest, ties to even. -/
def normF64 (a : Nat) (k : Int) : F64 :=
  let L : Int := (natLog2 a : Int)
  let e : Int := L + k
  let s : Int := 52 - L
  let m := if 0 ≤ s then a * 2 ^ s.toNat
           else roundScaled a (2 ^ (-s).toNat)
  if m = 2 ^ 53 then ⟨2 ^ 52, e + 1⟩ else ⟨m, e⟩

/-- The nearest binary64 value to the fraction `a / b` (with
`a, b > 0`): the exponent is read off a 200-bit fixed-point
approximation (exact whenever `a / b ≥ 2 ^ (-200)`, which covers every
positive rupee amount), then the mantissa is rounded to nearest, ties
to even. -/
def toF64 (a b : Nat) : F64 :=
  let e : Int := (natLog2 (a * 2 ^ 200 / b) : Int) - 200
  let s : Int := 52 - e
  let m := if 0 ≤ s then roundScaled (a * 2 ^ s.toNat) b
           else roundScaled a (b * 2 ^ (-s).toNat)
  if m = 2 ^ 53 then ⟨2 ^ 52, e + 1⟩ else ⟨m, e⟩

/-- CPython `float(q)` for a rational (`Decimal`) amount. -/
def float_of_decimal (q : ℚ) : F64 :=
  if q.num ≤ 0 then ⟨0, 0⟩ else toF64 q.num.toNat q.den

/-- Correctly rounded binary64 multiplication. -/
def F64.mul (x y : F64) : F64 :=
  if x.m = 0 || y.m = 0 then ⟨0, 0⟩
  else normF64 (x.m * y.m) (x.e + y.e - 104)

/-- The exact binary64 value of a small natural number (such as the
literal `100`). -/
def F64.ofNat (n : Nat) : F64 :=
  if n = 0 then ⟨0, 0⟩ else normF64 n 0

/-- CPython `int(...)` on a nonnegative float: truncation. -/
def pyIntOfF64 (x : F64) : Int :=
  if 0 ≤ x.e - 52 then (x.m : Int) * 2 ^ (x.e - 52).toNat
  else ((x.m / 2 ^ (52 - x.e).toNat : Nat) : Int)

/-! ## `PaymentService` (`core/payment_service.py` lines 17-209)

Each method wraps a `razorpay.Client` call in `try/except Exception`.
The third-party call is abstracted as an `Except String α` parameter:
`Except.error e` stands for the call (or any step inside the `try`)
raising an exception whose string form is `e`. -/

/-- The `int(float(amount) * 100)`, the paise conversion of `create_order`
line 41 and `capture_payment` line 140: convert the `Decimal` to a
binary64 `float`, multiply by the float `100` in binary64, truncate. -/
def amount_paise_of (amount : ℚ) : Int :=
  pyIntOfF64 (F64.mul (float_of_decimal amount) (F64.ofNat 100))

/-- The dict `create_order` returns (lines 52-65), with the full
razorpay `order` object elided to its id. -/
structure CreateOrderResult where
  success : Bool
  order_id : Option String
  amount : Option ℚ
  amount_paise : Option Int
  currency : Option String
  error : Option String
deriving Repr, DecidableEq

/-- The two-field result dict shared by `fetch_payment`,
`capture_payment`, `refund_payment` and `get_order_payments`. -/
structure ServiceResult (α : Type) where
  success : Bool
  value : Option α
  error : Option String
deriving Repr, DecidableEq

/-- The `PaymentService.create_order` (lines 25-65). -/
def create_order (amount : ℚ) (currency : String)
    (clientResult : Except String String) : CreateOrderResult :=
  let amount_paise := amount_paise_of amount
  match clientResult with
  | .ok order_id =>
      { success := true, order_id := some order_id,
        amount := some amount, amount_paise := some amount_paise,
        currency := some currency, error := none }
  | .error e =>
      { success := false, order_id := none, amount := none,
        amount_paise := none, currency := none, error := some e }

/-- The `PaymentService.verify_payment_signature` (lines 67-101): the HMAC
step `hmac.new(secret, order_id|payment_id, sha256).hexdigest()` is
abstracted as `generated`; on an exception the method returns `false`,
otherwise it is `hmac.compare_digest`, i.e. string equality. -/
def verify_payment_signature (generated : Except String String)
    (razorpay_signature : String) : Bool :=
  match generated with
  | .ok generated_signature => generated_signature == razorpay_signature
  | .error _ => false

/-- The `PaymentService.fetch_payment` (lines 103-124). -/
def fetch_payment (clientResult : Except String String) :
    ServiceResult String :=
  match clientResult with
  | .ok payment => { success := true, value := some payment, error := none }
  | .error e => { success := false, value := none, error := some e }

/-- The `PaymentService.capture_payment` (lines 126-154): the paise
conversion of line 140 is handed to the client, whose response is the
`clientResult` parameter. -/
def capture_payment (amount : ℚ) (clientResult : Except String String) :
    ServiceResult String :=
  let _amount_paise := amount_paise_of amount
  match clientResult with
  | .ok payment => { success := true, value := some payment, error := none }
  | .error e => { success := false, value := none, error := some e }

/-- The `PaymentService.refund_payment` (lines 156-186): `if amount:` treats
a null and a zero amount alike (full refund, no `amount` key). -/
def refund_payment (amount : Option ℚ)
    (clientResult : Except String String) : ServiceResult String :=
  let _refund_amount : Option Int :=
    match amount with
    | some a => if a ≠ 0 then some (amount_paise_of a) else none
    | none => none
  match clientResult with
  | .ok refund => { success := true, value := some refund, error := none }
  | .error e => { success := false, value := none, error := some e }

/-- The `PaymentService.get_order_payments` (lines 188-209): the client
returns the order's payment items. -/
def get_order_payments (clientResult : Except String (List String)) :
    ServiceResult (List String) :=
  match clientResult with
  | .ok payments => { success := true, value := some payments, error := none }
  | .error e => { success := false, value := none, error := some e }

/-! ## Payment verification view (`core/views.py` lines 1518-1595) -/

/-- The JSON responses of `verify_payment`, keyed by their error
message; `errorResp` covers the outer `except Exception` (including
the `Http404` a failed booking lookup raises). -/
inductive VerifyPaymentResponse where
  | missingDetails
  | serviceNotConfigured
  | invalidSignature
  | verified (bookingId : String)
  | errorResp (msg : String)
deriving Repr, DecidableEq

/-- Python truthiness of a posted field: `not all([...])` treats an
absent field and an empty string alike. -/
def truthy : Option String → Bool
  | some s => s != ""
  | none => false

/-- The `verify_payment` (`core/views.py` lines 1518-1595).  `hmacHex m`
abstracts `hmac.new(RAZORPAY_KEY_SECRET, m, sha256).hexdigest()` (the
secret is baked into the function), `serviceConfigured` is
`get_payment_service()` returning a service, and `booking` is the row
named by the posted booking id when it belongs to the requesting user.
The `Payment`-row update (lines 1564-1571) and the notification calls
(lines 1573-1582) touch no `Booking` field and are elided. -/
def verify_payment (hmacHex : String → String) (serviceConfigured : Bool)
    (razorpay_order_id razorpay_payment_id razorpay_signature
      booking_id : Option String)
    (requestUserId : String) (booking : Booking) (now : Nat) :
    VerifyPaymentResponse × Booking :=
  if !(truthy razorpay_order_id && truthy razorpay_payment_id &&
       truthy razorpay_signature && truthy booking_id) then
    (.missingDetails, booking)
  else if !serviceConfigured then (.serviceNotConfigured, booking)
  else
    let oid := razorpay_order_id.getD ""
    let pid := razorpay_payment_id.getD ""
    let sig := razorpay_signature.getD ""
    if !(verify_payment_signature (Except.ok (hmacHex (oid ++ "|" ++ pid)))
          sig) then
      (.invalidSignature, booking)
    else if booking_id.getD "" != booking.id ||
        booking.userId != requestUserId then
      (.errorResp "404", booking)
    else
      (.verified booking.id,
        { booking with
          payment_id := some pid, payment_signature := some sig,
          is_paid := true, paid_at := some now,
          status := "confirmed", escrow_status := "held" })

/-- C2 fixture: an HMAC abstraction. -/
def c2_hmac : String → String := fun m => String.append "hmac:" m

/-- C2 fixture: an unpaid, payment-pending booking of user alice. -/
def c2_booking : Booking :=
  { id := "bkc2", userId := "alice", providerId := "p2",
    consultation_type := "video", description := "",
    status := "payment_pending", amount := 1500,
    escrow_status := "pending", payment_id := none,
    payment_order_id := some "o1", payment_signature := none,
    is_paid := false, paid_at := none, scheduled_date := some 3,
    scheduled_time := some 540, duration_minutes := 30,
    completed_at := none }

/-! ## Escrow release (`core/models.py` lines 526-559, `core/views.py`
lines 1228-1246) -/

/-- The `EscrowTransaction` (`core/models.py` lines 526-559): the fields
the release flow reads or writes. -/
structure EscrowTransaction where
  bookingId : String
  amount : ℚ
  status : String
  client_confirmed : Bool
  service_completed : Bool
  released_at : Option Nat
deriving Repr, DecidableEq

/-- The responses of `release_escrow`: success with the resulting
escrow status, the 404 of a failed booking lookup, or the 404 of a
missing escrow transaction. -/
inductive ReleaseEscrowResponse where
  | success (status : String)
  | notFound404
  | noEscrow404
deriving Repr, DecidableEq

/-- The `release_escrow` (`core/views.py` lines 1228-1246):
`get_object_or_404(Booking, id=..., user=request.user)` is the user
check on the booking row, and `booking.escrow_transaction` is the
optional escrow row (`DoesNotExist` answered with the 404 JSON
error). -/
def release_escrow (requestUserId : String) (booking : Booking)
    (escrow : Option EscrowTransaction) (now : Nat) :
    ReleaseEscrowResponse × Option EscrowTransaction :=
  if booking.userId != requestUserId then (.notFound404, escrow)
  else
    match escrow with
    | none => (.noEscrow404, none)
    | some e =>
      let e1 := { e with client_confirmed := true }
      let e2 :=
        if e1.service_completed then
          { e1 with status := "released", released_at := some now }
        else e1
      (.success e2.status, some e2)

/-! ## Booking completion (`core/views.py` lines 1741-1771) -/

/-- The outcomes of `complete_booking`; `attributeError` is the
uncaught `AttributeError` that escapes the view as an HTTP 500. -/
inductive CompleteBookingResponse where
  | ok
  | wrongStatus
  | attributeError
deriving Repr, DecidableEq

/-- The `complete_booking` (`core/views.py` lines 1741-1771), for the
provider's own booking (the `request.user.provider_profile` and
`get_object_or_404(..., provider=provider)` lookups resolved).  After
the status guard the view saves the booking as completed and adds 50
to the in-memory `provider.incentive_points`, but the next statement,
`provider.cases_won += 1`, reads a `cases_won` attribute that
`ProviderProfile` (`core/models.py` lines 38-87) does not define, so
it raises `AttributeError`; the surrounding `except
ProviderProfile.DoesNotExist` does not catch it, `provider.save()` on
line 1760 never runs, and the stored provider row — its
`incentive_points` included — is unchanged while the booking was
already saved as completed. -/
def complete_booking (provider : ProviderProfile) (booking : Booking)
    (now : Nat) : CompleteBookingResponse × Booking × ProviderProfile :=
  if !(["accepted", "in-progress"].contains booking.status) then
    (.wrongStatus, booking, provider)
  else
    let booking1 :=
      { booking with status := "completed", completed_at := some now }
    (.attributeError, booking1, provider)

/-- C4 fixture: a provider with no points yet. -/
def c4_provider : ProviderProfile :=
  { id := "p4", userId := "lawyer4", rating := 0, review_count := 0,
    completed_cases := 0, hourly_rate := some 1000, incentive_points := 0 }

/-- C4 fixture: an accepted, paid booking of that provider. -/
def c4_booking : Booking :=
  { id := "bk4", userId := "dave", providerId := "p4",
    consultation_type := "video", description := "",
    status := "accepted", amount := 1000, escrow_status := "held",
    payment_id := some "pay4", payment_order_id := some "ord4",
    payment_signature := some "sig4", is_paid := true, paid_at := some 11,
    scheduled_date := some 20, scheduled_time := some 900,
    duration_minutes := 30, completed_at := none }

/-- C4 fixture: the same booking already completed. -/
def c4_booking_done : Booking :=
  { c4_booking with
    id := "bk4b", status := "completed", completed_at := some 15 }

/-! ## Razorpay webhook (`core/views.py` lines 1600-1672) -/

/-- The `payment.captured` branch of `razorpay_webhook` (lines
1625-1645): find the first booking whose `payment_order_id` matches
(the bookings list stands for the queryset in its `-created_at`
order) and mark it paid unless it already is.  The `Payment`-row
update of lines 1640-1645 touches no booking. -/
def webhook_payment_captured (order_id payment_id : String) (now : Nat) :
    List Booking → List Booking
  | [] => []
  | b :: rest =>
    if b.payment_order_id == some order_id then
      (if !b.is_paid then
        { b with
          payment_id := some payment_id, is_paid := true,
          paid_at := some now, status := "confirmed",
          escrow_status := "held" }
       else b) :: rest
    else b :: webhook_payment_captured order_id payment_id now rest

/-- C5 fixture: an unpaid booking awaiting capture of order `ord5`. -/
def c5_booking : Booking :=
  { id := "bk5", userId := "erin", providerId := "p5",
    consultation_type := "video", description := "",
    status := "payment_pending", amount := 1500,
    escrow_status := "pending", payment_id := none,
    payment_order_id := some "ord5", payment_signature := none,
    is_paid := false, paid_at := none, scheduled_date := some 8,
    scheduled_time := some 660, duration_minutes := 30,
    completed_at := none }

/-! ## Refunds (`core/views.py` lines 2010-2058) -/

/-- The JSON responses of `request_refund`, by their error message. -/
inductive RefundResponse where
  | notFound404
  | cannotRefundCompleted
  | noPaymentToRefund
  | refunded
  | refundFailed (msg : String)
  | unableToProcess
deriving Repr, DecidableEq

/-- The `request_refund` (`core/views.py` lines 2010-2058).  The gateway
call is `refund_payment` above with its `clientResult` abstraction
(the view passes no amount, a full refund); `serviceConfigured` is
`get_payment_service()` returning a service, and `if payment_service
and booking.payment_id:` treats a null and an empty payment id
alike. -/
def request_refund (requestUserId : String) (serviceConfigured : Bool)
    (clientResult : Except String String) (booking : Booking) :
    RefundResponse × Booking :=
  if booking.userId != requestUserId then (.notFound404, booking)
  else if booking.status == "completed" then
    (.cannotRefundCompleted, booking)
  else if !booking.is_paid then (.noPaymentToRefund, booking)
  else if serviceConfigured && truthy booking.payment_id then
    let result := refund_payment none clientResult
    if result.success then
      (.refunded,
       { booking with escrow_status := "refunded", status := "cancelled" })
    else (.refundFailed (result.error.getD "Refund failed"), booking)
  else (.unableToProcess, booking)

/-- C6 fixture: a paid, confirmed booking of user frank. -/
def c6_booking : Booking :=
  { id := "bk6", userId := "frank", providerId := "p6",
    consultation_type := "video", description := "",
    status := "confirmed", amount := 1500, escrow_status := "held",
    payment_id := some "pay6", payment_order_id := some "ord6",
    payment_signature := some "sig6", is_paid := true, paid_at := some 4,
    scheduled_date := some 9, scheduled_time := some 840,
    duration_minutes := 30, completed_at := none }

/-! ## Reviews (`core/models.py` lines 340-355, `core/views.py` lines
1961-2005) -/

/-- The `Review` (`core/models.py` lines 340-355). -/
structure Review where
  id : String
  bookingId : String
  userId : String
  providerId : String
  rating : Int
  comment : String
deriving Repr, DecidableEq

/-- The JSON responses of `submit_review`. -/
inductive SubmitReviewResponse where
  | notFound404
  | alreadyReviewed
  | invalidRating
  | ok
deriving Repr, DecidableEq

/-- The `submit_review` (`core/views.py` lines 1961-2005).
`get_object_or_404(Booking, id=..., user=..., status='completed')` is
the owner/status guard; `ratingPost` is the posted rating already
parsed to an integer (`int(...)` of an unparsable string raises
uncaught, outside this model), defaulting to 5 when absent; `newId`
stands for the fresh review primary key.  The provider's stored
`rating` is recomputed as `Avg('rating')` over all of the provider's
reviews (SQL float arithmetic carried out in `ℚ`). -/
def submit_review (requestUserId : String) (booking : Booking)
    (ratingPost : Option Int) (comment newId : String)
    (reviews : List Review) (provider : ProviderProfile) :
    SubmitReviewResponse × List Review × ProviderProfile :=
  if booking.userId != requestUserId || booking.status != "completed" then
    (.notFound404, reviews, provider)
  else if reviews.any fun r => r.bookingId == booking.id then
    (.alreadyReviewed, reviews, provider)
  else
    let rating := ratingPost.getD 5
    if rating < 1 || rating > 5 then (.invalidRating, reviews, provider)
    else
      let reviews2 := reviews ++
        [{ id := newId, bookingId := booking.id, userId := requestUserId,
           providerId := booking.providerId, rating := rating,
           comment := comment }]
      let providerReviews :=
        reviews2.filter fun r => r.providerId == booking.providerId
      let avg : ℚ :=
        ((providerReviews.map fun r => (r.rating : ℚ)).sum) /
          (providerReviews.length : ℚ)
      (.ok, reviews2, { provider with rating := avg })

/-- C9 fixture: a completed booking of user gina with provider p9. -/
def c9_booking : Booking :=
  { id := "bk9", userId := "gina", providerId := "p9",
    consultation_type := "video", description := "",
    status := "completed", amount := 1200, escrow_status := "released",
    payment_id := some "pay9", payment_order_id := some "ord9",
    payment_signature := some "sig9", is_paid := true, paid_at := some 2,
    scheduled_date := some 5, scheduled_time := some 960,
    duration_minutes := 30, completed_at := some 6 }

/-- C9 fixture: the provider row for p9. -/
def c9_provider : ProviderProfile :=
  { id := "p9", userId := "lawyer9", rating := 2, review_count := 1,
    completed_cases := 1, hourly_rate := some 1200,
    incentive_points := 60 }

/-- C9 fixture: an existing review of another booking of p9. -/
def c9_other_review : Review :=
  { id := "rv0", bookingId := "bk0", userId := "henry",
    providerId := "p9", rating := 2, comment := "meh" }

/-- C3 fixture: a paid booking of user ivan. -/
def c3_booking : Booking :=
  { id := "bk3c", userId := "ivan", providerId := "p3",
    consultation_type := "video", description := "",
    status := "accepted", amount := 1800, escrow_status := "held",
    payment_id := some "pay3", payment_order_id := some "ord3",
    payment_signature := some "sig3", is_paid := true, paid_at := some 1,
    scheduled_date := some 4, scheduled_time := some 720,
    duration_minutes := 30, completed_at := none }

/-- C3 fixture: its held escrow, with the service already marked
completed. -/
def c3_escrow : EscrowTransaction :=
  { bookingId := "bk3c", amount := 1800, status := "held",
    client_confirmed := false, service_completed := true,
    released_at := none }

/-- C5 fixture: a booking whose order `ord5b` is already paid. -/
def c5_paid : Booking :=
  { c5_booking with
    id := "bk5b", payment_order_id := some "ord5b", is_paid := true,
    paid_at := some 2, status := "confirmed", escrow_status := "held",
    payment_id := some "pay5b" }

/-- C8 fixture: the amount ₹0.29, as a normalized rational literal. -/
def c8_amount : ℚ := Rat.mk' 29 100 (by decide) (by decide)

/-- C10 helper: the four concrete tiers, by threshold. -/
theorem get_provider_tier_eq (points : Int) :
    get_provider_tier points =
      if points < 500 then (⟨"Bronze", 0⟩ : Tier)
      else if points < 1500 then ⟨"Silver", 500⟩
      else if points < 3000 then ⟨"Gold", 1500⟩
      else ⟨"Platinum", 3000⟩ := by
  have hs : List.insertionSort (fun a b => b.min_points ≤ a.min_points) REWARD_TIERS
      = [⟨"Platinum", 3000⟩, ⟨"Gold", 1500⟩, ⟨"Silver", 500⟩, ⟨"Bronze", 0⟩] := by rfl
  unfold get_provider_tier
  rw [hs]
  by_cases h0 : (0:Int) ≤ points <;> by_cases h1 : (500:Int) ≤ points <;>
    by_cases h2 : (1500:Int) ≤ points <;> by_cases h3 : (3000:Int) ≤ points <;>
    simp [List.find?, List.headI, REWARD_TIERS, h0, h1, h2, h3] <;>
    split_ifs <;> first | rfl | omega

/-- C10 helper: `get_next_tier`, by threshold. -/
theorem get_next_tier_eq (p : Int) :
    get_next_tier p =
      if p < 0 then some (⟨"Bronze", 0⟩, -p)
      else if p < 500 then some (⟨"Silver", 500⟩, 500 - p)
      else if p < 1500 then some (⟨"Gold", 1500⟩, 1500 - p)
      else if p < 3000 then some (⟨"Platinum", 3000⟩, 3000 - p)
      else none := by
  unfold get_next_tier REWARD_TIERS
  by_cases h0 : p < 0 <;> by_cases h1 : p < 500 <;>
    by_cases h2 : p < 1500 <;> by_cases h3 : p < 3000 <;>
    simp [List.find?, h0, h1, h2, h3] <;> split_ifs <;>
    first | rfl | omega | (constructor <;> first | rfl | omega)

/-- C10: `get_provider_tier` is total and monotone — it always returns a
declared tier; for nonnegative points it returns the tier with the
greatest `min_points` not exceeding the points; for negative points it
returns Bronze; and `get_next_tier` returns, below 3000 points, the
lowest tier whose `min_points` strictly exceeds the points together with
`points_needed` equal to that `min_points` minus the points, and `none`
from 3000 points on. -/
theorem c10_reward_tiers (points : Int) :
    get_provider_tier points ∈ REWARD_TIERS ∧
    (0 ≤ points →
      (get_provider_tier points).min_points ≤ points ∧
      ∀ t ∈ REWARD_TIERS, t.min_points ≤ points →
        t.min_points ≤ (get_provider_tier points).min_points) ∧
    (points < 0 → get_provider_tier points = ⟨"Bronze", 0⟩) ∧
    (points < 3000 →
      ∃ t, get_next_tier points = some (t, t.min_points - points) ∧
        t ∈ REWARD_TIERS ∧ points < t.min_points ∧
        ∀ u ∈ REWARD_TIERS, points < u.min_points → t.min_points ≤ u.min_points) ∧
    (3000 ≤ points → get_next_tier points = none) := by
  rw [get_provider_tier_eq]
  refine ⟨?_, ?_, ?_, ?_, ?_⟩
  · split_ifs <;> simp [REWARD_TIERS]
  · intro h0
    constructor
    · split_ifs <;> simp <;> omega
    · intro t ht hle
      fin_cases ht <;> split_ifs <;> simp_all <;> omega
  · intro hneg
    split_ifs <;> first | rfl | omega
  · intro hlt
    rw [get_next_tier_eq]
    by_cases h0 : points < 0
    · refine ⟨⟨"Bronze", 0⟩, ?_, ?_, ?_, ?_⟩
      · simp [h0]
      · simp [REWARD_TIERS]
      · simpa using h0
      · intro u hu hult; fin_cases hu <;> simp
    · by_cases h1 : points < 500
      · refine ⟨⟨"Silver", 500⟩, ?_, ?_, ?_, ?_⟩
        · simp [h0, h1]
        · simp [REWARD_TIERS]
        · simpa using h1
        · intro u hu hult; fin_cases hu <;> simp_all <;> omega
      · by_cases h2 : points < 1500
        · refine ⟨⟨"Gold", 1500⟩, ?_, ?_, ?_, ?_⟩
          · simp [h0, h1, h2]
          · simp [REWARD_TIERS]
          · simpa using h2
          · intro u hu hult; fin_cases hu <;> simp_all <;> omega
        · refine ⟨⟨"Platinum", 3000⟩, ?_, ?_, ?_, ?_⟩
          · simp [h0, h1, h2, hlt]
          · simp [REWARD_TIERS]
          · simpa using hlt
          · intro u hu hult; fin_cases hu <;> simp_all <;> omega
  · intro hge
    rw [get_next_tier_eq]
    split_ifs <;> first | rfl | omega

/-- C1 counterexample: an existing booking in the active status
`in-progress` at the requested provider/date/time does not make
`htmx_create_booking` return the slot-taken response — it creates a
second booking, after which two active bookings of the provider share
`scheduled_date` 10 and `scheduled_time` 10:00. -/
theorem c1_counterexample :
    c1_existing.status ∈ activeStatuses ∧
    (htmx_create_booking true "alice" c1_provider none "" "video" 10 600 "bk2"
        [c1_existing]).1 ≠ CreateBookingResponse.slotTaken ∧
    ((htmx_create_booking true "alice" c1_provider none "" "video" 10 600 "bk2"
        [c1_existing]).2.filter fun b =>
          b.providerId == "p1" && b.scheduled_date == some 10 &&
          b.scheduled_time == some 600 &&
          activeStatuses.contains b.status).length = 2 := by
  decide

/-- C1 (amended): if a booking already exists for the provider at the
requested date and time in one of the statuses `pending`,
`payment_pending`, `confirmed` or `accepted`, `htmx_create_booking`
returns the slot-taken response and creates no booking (an existing
`in-progress` booking does not block, so uniqueness is only guaranteed
among those four statuses). -/
theorem c1_no_double_booking (userId : String) (provider : ProviderProfile)
    (service : Option ServiceListing) (notes ct : String) (d t : Nat)
    (newId : String) (bookings : List Booking) (b : Booking)
    (hb : b ∈ bookings) (hp : b.providerId = provider.id)
    (hd : b.scheduled_date = some d) (ht : b.scheduled_time = some t)
    (hs : b.status ∈ createBookingBlockingStatuses) :
    htmx_create_booking true userId provider service notes ct d t newId bookings
      = (CreateBookingResponse.slotTaken, bookings) := by
  have hex : (bookings.any fun x =>
      x.providerId == provider.id && x.scheduled_date == some d &&
      x.scheduled_time == some t &&
      createBookingBlockingStatuses.contains x.status) = true := by
    rw [List.any_eq_true]
    refine ⟨b, hb, ?_⟩
    simp [createBookingBlockingStatuses] at hs
    rcases hs with h | h | h | h <;>
      simp [hp, hd, ht, h, createBookingBlockingStatuses]
  simp only [htmx_create_booking, hex]
  simp

/-- C1 witness: the amended statement applied to a concrete state with a
pending booking at the requested slot. -/
theorem c1_no_double_booking_witness :
    htmx_create_booking true "alice" c1_provider none "" "video" 10 600 "bk2"
      [c1_pending] = (CreateBookingResponse.slotTaken, [c1_pending]) := by
  exact c1_no_double_booking "alice" c1_provider none "" "video" 10 600 "bk2"
    [c1_pending] c1_pending (by simp) (by decide) (by decide) (by decide) (by decide)

/-- C2: with the payment service configured and the posted booking id
naming the requesting user's booking, `verify_payment` marks the
booking paid (payment_id, payment_signature, is_paid, paid_at, status
`confirmed`, escrow_status `held`) exactly when all four posted fields
are present (non-empty) and the signature equals the HMAC-SHA256 hex
digest of `order_id|payment_id` under the Razorpay secret; on a
missing field it reports missing details and on a signature mismatch
an invalid signature, leaving the booking unchanged in both cases. -/
theorem c2_verify_payment_update (hmacHex : String → String)
    (oid pid sig bid : Option String) (u : String) (b : Booking) (now : Nat)
    (hbid : bid = some b.id) (hu : b.userId = u) :
    verify_payment hmacHex true oid pid sig bid u b now
      = (if truthy oid && truthy pid && truthy sig && truthy bid then
          if sig.getD "" == hmacHex (oid.getD "" ++ "|" ++ pid.getD "") then
            (.verified b.id,
             { b with
               payment_id := some (pid.getD ""),
               payment_signature := some (sig.getD ""),
               is_paid := true, paid_at := some now,
               status := "confirmed", escrow_status := "held" })
          else (.invalidSignature, b)
        else (.missingDetails, b)) := by
  by_cases h1 : (truthy oid && truthy pid && truthy sig && truthy bid) = true
  · rw [Bool.and_eq_true, Bool.and_eq_true, Bool.and_eq_true] at h1
    obtain ⟨⟨⟨ho, hp⟩, hs⟩, hb2⟩ := h1
    subst hbid
    by_cases h2 :
        (sig.getD "" == hmacHex (oid.getD "" ++ "|" ++ pid.getD "")) = true
    · have hmatch : (hmacHex (oid.getD "" ++ "|" ++ pid.getD "")
          == sig.getD "") = true := by
        rw [beq_iff_eq] at h2 ⊢
        exact h2.symm
      simp [verify_payment, verify_payment_signature, ho, hp, hs, hb2, h2,
        hmatch, hu]
    · rw [Bool.not_eq_true] at h2
      have hmatch : (hmacHex (oid.getD "" ++ "|" ++ pid.getD "")
          == sig.getD "") = false := by
        rw [beq_eq_false_iff_ne] at h2 ⊢
        exact fun hcontra => h2 hcontra.symm
      simp [verify_payment, verify_payment_signature, ho, hp, hs, hb2, h2,
        hmatch]
  · simp [verify_payment, h1]

/-- C2 witness: a valid signature on concrete posted fields marks the
fixture booking paid; the same call with a wrong signature leaves it
unchanged. -/
theorem c2_verify_payment_update_witness :
    verify_payment c2_hmac true (some "o1") (some "p1")
        (some (c2_hmac "o1|p1")) (some "bkc2") "alice" c2_booking 7
      = (.verified "bkc2",
         { c2_booking with
           payment_id := some "p1",
           payment_signature := some (c2_hmac "o1|p1"),
           is_paid := true, paid_at := some 7,
           status := "confirmed", escrow_status := "held" }) ∧
    verify_payment c2_hmac true (some "o1") (some "p1") (some "bad")
        (some "bkc2") "alice" c2_booking 7
      = (.invalidSignature, c2_booking) := by
  constructor
  · rw [c2_verify_payment_update c2_hmac (some "o1") (some "p1")
      (some (c2_hmac "o1|p1")) (some "bkc2") "alice" c2_booking 7 rfl rfl]
    decide
  · rw [c2_verify_payment_update c2_hmac (some "o1") (some "p1") (some "bad")
      (some "bkc2") "alice" c2_booking 7 rfl rfl]
    decide

/-- C3: for the requesting user's booking, `release_escrow` answers a
missing escrow transaction with the 404 error and changes nothing;
with an escrow transaction it always sets `client_confirmed`, moves
the status to `released` and records `released_at` exactly when
`service_completed` was already true, and otherwise leaves the status
and `released_at` fields unchanged. -/
theorem c3_release_escrow_milestones (u : String) (b : Booking)
    (esc : Option EscrowTransaction) (now : Nat) (hu : b.userId = u) :
    release_escrow u b none now = (.noEscrow404, none) ∧
    (∀ e, esc = some e →
      ∃ e2, release_escrow u b esc now = (.success e2.status, some e2) ∧
        e2.client_confirmed = true ∧
        (e.service_completed = true →
          e2.status = "released" ∧ e2.released_at = some now) ∧
        (e.service_completed = false →
          e2.status = e.status ∧ e2.released_at = e.released_at) ∧
        e2.service_completed = e.service_completed ∧
        e2.amount = e.amount ∧ e2.bookingId = e.bookingId) := by
  have hbne : (b.userId != u) = false := by simp [hu]
  constructor
  · simp [release_escrow, hbne]
  · rintro e rfl
    by_cases hsc : e.service_completed = true
    · refine ⟨{ e with
        client_confirmed := true, status := "released",
        released_at := some now },
        ?_, rfl, fun _ => ⟨rfl, rfl⟩, ?_, rfl, rfl, rfl⟩
      · simp [release_escrow, hbne, hsc]
      · intro hf
        rw [hsc] at hf
        cases hf
    · have hsc2 : e.service_completed = false := by
        revert hsc
        cases e.service_completed <;> simp
      refine ⟨{ e with client_confirmed := true }, ?_, rfl, ?_,
        fun _ => ⟨rfl, rfl⟩, rfl, rfl, rfl⟩
      · simp [release_escrow, hbne, hsc2]
      · intro ht
        rw [hsc2] at ht
        cases ht

/-- C3 witness: releasing the fixture escrow, whose service is marked
completed, and the 404 of a booking without one. -/
theorem c3_release_escrow_milestones_witness :
    release_escrow "ivan" c3_booking none 30 = (.noEscrow404, none) ∧
    release_escrow "ivan" c3_booking (some c3_escrow) 30
      = (.success "released",
         some { c3_escrow with
           client_confirmed := true, status := "released",
           released_at := some 30 }) := by
  have h := c3_release_escrow_milestones "ivan" c3_booking
    (some c3_escrow) 30 rfl
  refine ⟨h.1, ?_⟩
  obtain ⟨e2, heq, hcc, hrel, hnrel, hsc, ham, hbk⟩ := h.2 c3_escrow rfl
  rw [heq]
  obtain ⟨hst, hra⟩ := hrel rfl
  have : e2 = { c3_escrow with
      client_confirmed := true, status := "released",
      released_at := some 30 } := by
    cases e2
    simp_all [c3_escrow]
  rw [this]

/-- C4: `complete_booking` on an accepted booking saves the booking as
completed and then fails with an uncaught `AttributeError` — the
stored provider row keeps its old `incentive_points` (no +50 ever
lands); a booking in any other status is answered with the
wrong-status error and nothing changes. -/
theorem c4_complete_booking_loses_points :
    complete_booking c4_provider c4_booking 21
      = (.attributeError,
         { c4_booking with status := "completed", completed_at := some 21 },
         c4_provider) ∧
    (complete_booking c4_provider c4_booking 21).2.2.incentive_points
      = c4_provider.incentive_points ∧
    complete_booking c4_provider c4_booking_done 21
      = (.wrongStatus, c4_booking_done, c4_provider) := by
  exact ⟨rfl, rfl, rfl⟩

/-- C5: the `payment.captured` webhook branch updates the matching
booking only when it is not already paid, so processing the same
captured event a second time leaves the booking list exactly as the
first processing left it, whatever timestamps the two deliveries
carry; a booking that is already paid is never touched. -/
theorem c5_webhook_capture_idempotent (order_id payment_id : String)
    (t1 t2 : Nat) (bookings : List Booking) :
    webhook_payment_captured order_id payment_id t2
        (webhook_payment_captured order_id payment_id t1 bookings)
      = webhook_payment_captured order_id payment_id t1 bookings ∧
    (∀ b : Booking, b.is_paid = true →
      webhook_payment_captured order_id payment_id t1 [b] = [b]) := by
  constructor
  · induction bookings with
    | nil => rfl
    | cons b rest ih =>
      by_cases hm : (b.payment_order_id == some order_id) = true
      · by_cases hp : b.is_paid = true
        · simp [webhook_payment_captured, hm, hp]
        · have hp2 : b.is_paid = false := by
            revert hp
            cases b.is_paid <;> simp
          simp [webhook_payment_captured, hm, hp2]
      · have hm2 : (b.payment_order_id == some order_id) = false := by
          revert hm
          cases b.payment_order_id == some order_id <;> simp
        simp [webhook_payment_captured, hm2, ih]
  · intro b hp
    by_cases hm : (b.payment_order_id == some order_id) = true
    · simp [webhook_payment_captured, hm, hp]
    · have hm2 : (b.payment_order_id == some order_id) = false := by
        revert hm
        cases b.payment_order_id == some order_id <;> simp
      simp [webhook_payment_captured, hm2]

/-- C5 witness: double delivery of the capture of order `ord5` against
the unpaid fixture booking, and a no-op delivery against the already
paid one. -/
theorem c5_webhook_capture_idempotent_witness :
    webhook_payment_captured "ord5" "pay5" 9
        (webhook_payment_captured "ord5" "pay5" 3 [c5_booking])
      = webhook_payment_captured "ord5" "pay5" 3 [c5_booking] ∧
    webhook_payment_captured "ord5b" "pay9" 9 [c5_paid] = [c5_paid] := by
  exact ⟨(c5_webhook_capture_idempotent "ord5" "pay5" 3 9 [c5_booking]).1,
    (c5_webhook_capture_idempotent "ord5b" "pay9" 9 0 []).2 c5_paid rfl⟩

/-- C6: for the requesting user's booking, `request_refund` rejects a
completed booking and an unpaid booking without change; a gateway
error leaves the booking unchanged; and the only way the stored
booking changes at all is a paid, non-completed booking with the
service configured, a payment id on file, and a gateway-confirmed
refund — in which case it moves to escrow_status `refunded` and
status `cancelled`. -/
theorem c6_refund_rules (u : String) (sc : Bool)
    (clientResult : Except String String) (b : Booking)
    (hu : b.userId = u) :
    (b.status = "completed" →
      request_refund u sc clientResult b = (.cannotRefundCompleted, b)) ∧
    (b.is_paid = false → b.status ≠ "completed" →
      request_refund u sc clientResult b = (.noPaymentToRefund, b)) ∧
    (∀ e, clientResult = Except.error e →
      (request_refund u sc clientResult b).2 = b) ∧
    (∀ resp b2, request_refund u sc clientResult b = (resp, b2) →
      b2 ≠ b →
      b.is_paid = true ∧ b.status ≠ "completed" ∧ sc = true ∧
        truthy b.payment_id = true ∧
        (∃ r, clientResult = Except.ok r) ∧ resp = .refunded ∧
        b2 = { b with escrow_status := "refunded", status := "cancelled" }) := by
  have hbne : (b.userId != u) = false := by simp [hu]
  refine ⟨?_, ?_, ?_, ?_⟩
  · intro hst
    have h1 : (b.status == "completed") = true := by simp [hst]
    simp [request_refund, hbne, h1]
  · intro hpaid hst
    have h1 : (b.status == "completed") = false := by
      simp [beq_eq_false_iff_ne, hst]
    simp [request_refund, hbne, h1, hpaid]
  · intro e hce
    by_cases h1 : (b.status == "completed") = true
    · simp [request_refund, hbne, h1]
    · have h1f : (b.status == "completed") = false := by
        revert h1
        cases b.status == "completed" <;> simp
      by_cases hp : b.is_paid = true
      · by_cases h2 : (sc && truthy b.payment_id) = true
        · simp [request_refund, refund_payment, hbne, h1f, hp, h2, hce]
        · have h2f : (sc && truthy b.payment_id) = false := by
            revert h2
            cases sc && truthy b.payment_id <;> simp
          simp [request_refund, hbne, h1f, hp, h2f]
      · have hpf : b.is_paid = false := by
          revert hp
          cases b.is_paid <;> simp
        simp [request_refund, hbne, h1f, hpf]
  · intro resp b2 heq hne
    by_cases h1 : (b.status == "completed") = true
    · rw [request_refund] at heq
      simp [hbne, h1] at heq
      exact absurd heq.2.symm hne
    · have h1f : (b.status == "completed") = false := by
        revert h1
        cases b.status == "completed" <;> simp
      have hst : b.status ≠ "completed" := by
        intro hcontra
        rw [hcontra] at h1f
        simp at h1f
      by_cases hp : b.is_paid = true
      · by_cases h2 : (sc && truthy b.payment_id) = true
        · obtain ⟨hsc, hpi⟩ := Bool.and_eq_true _ _ |>.mp h2
          rcases clientResult with e | r
          · rw [request_refund] at heq
            simp [refund_payment, hbne, h1f, hp, h2] at heq
            exact absurd heq.2.symm hne
          · rw [request_refund] at heq
            simp [refund_payment, hbne, h1f, hp, h2] at heq
            refine ⟨hp, hst, hsc, hpi, ⟨r, rfl⟩, heq.1.symm, ?_⟩
            rw [hp]
            exact heq.2.symm
        · have h2f : (sc && truthy b.payment_id) = false := by
            revert h2
            cases sc && truthy b.payment_id <;> simp
          rw [request_refund] at heq
          simp [hbne, h1f, hp, h2f] at heq
          exact absurd heq.2.symm hne
      · have hpf : b.is_paid = false := by
          revert hp
          cases b.is_paid <;> simp
        rw [request_refund] at heq
        simp [hbne, h1f, hpf] at heq
        exact absurd heq.2.symm hne

/-- C6 witness: the rules applied to the paid fixture booking — a
gateway-confirmed refund cancels it, a gateway failure leaves it
unchanged, and its completed variant is rejected. -/
theorem c6_refund_rules_witness :
    request_refund "frank" true (Except.ok "rf1") c6_booking
      = (.refunded,
         { c6_booking with
           escrow_status := "refunded", status := "cancelled" }) ∧
    (request_refund "frank" true (Except.error "down") c6_booking).2
      = c6_booking ∧
    request_refund "frank" true (Except.ok "rf1")
        { c6_booking with status := "completed" }
      = (.cannotRefundCompleted, { c6_booking with status := "completed" }) := by
  refine ⟨?_, ?_, ?_⟩
  · rfl
  · exact (c6_refund_rules "frank" true (Except.error "down") c6_booking
      rfl).2.2.1 "down" rfl
  · exact (c6_refund_rules "frank" true (Except.ok "rf1")
      { c6_booking with status := "completed" } rfl).1 rfl

/-- C9: `submit_review` turns away a booking that is not the
requesting user's or not completed, refuses a second review for the
same booking, rejects a rating outside 1..5 — all without change —
and on success appends the one new review and stores as the
provider's rating the arithmetic mean of all review ratings recorded
for that provider; a booking reviewed for the first time ends with
exactly one review. -/
theorem c9_review_rules (u : String) (b : Booking) (rp : Option Int)
    (c newId : String) (reviews : List Review) (p : ProviderProfile)
    (hp : p.id = b.providerId) :
    (b.userId ≠ u ∨ b.status ≠ "completed" →
      submit_review u b rp c newId reviews p = (.notFound404, reviews, p)) ∧
    (b.userId = u → b.status = "completed" →
      (∃ r ∈ reviews, r.bookingId = b.id) →
      submit_review u b rp c newId reviews p
        = (.alreadyReviewed, reviews, p)) ∧
    (∀ rating, rp = some rating → (rating < 1 ∨ 5 < rating) →
      b.userId = u → b.status = "completed" →
      (∀ r ∈ reviews, r.bookingId ≠ b.id) →
      submit_review u b rp c newId reviews p
        = (.invalidRating, reviews, p)) ∧
    (∀ rating, rp = some rating → 1 ≤ rating → rating ≤ 5 →
      b.userId = u → b.status = "completed" →
      (∀ r ∈ reviews, r.bookingId ≠ b.id) →
      ∃ rs2 p2,
        submit_review u b rp c newId reviews p = (.ok, rs2, p2) ∧
        rs2 = reviews ++
          [{ id := newId, bookingId := b.id, userId := u,
             providerId := b.providerId, rating := rating,
             comment := c }] ∧
        p2.rating =
          ((rs2.filter fun r => r.providerId == p.id).map
            fun r => (r.rating : ℚ)).sum /
            ((rs2.filter fun r => r.providerId == p.id).length : ℚ) ∧
        p2.incentive_points = p.incentive_points ∧
        ((reviews.countP fun r => r.bookingId == b.id) = 0 →
          (rs2.countP fun r => r.bookingId == b.id) = 1)) := by
  refine ⟨?_, ?_, ?_, ?_⟩
  · intro h
    have hg : (b.userId != u || b.status != "completed") = true := by
      rcases h with h | h <;> simp [h]
    simp only [submit_review, hg, if_true]
  · intro hu2 hst hdup
    have hg : (b.userId != u || b.status != "completed") = false := by
      simp [hu2, hst]
    have hany : (reviews.any fun r => r.bookingId == b.id) = true := by
      rw [List.any_eq_true]
      obtain ⟨r, hr, hbid⟩ := hdup
      exact ⟨r, hr, by simp [hbid]⟩
    simp [submit_review, hg, hany]
  · intro rating hrp hout hu2 hst hnone
    have hg : (b.userId != u || b.status != "completed") = false := by
      simp [hu2, hst]
    have hany : (reviews.any fun r => r.bookingId == b.id) = false := by
      rw [List.any_eq_false]
      intro r hr
      simp [hnone r hr]
    have hbad : (decide (rating < 1) || decide (rating > 5)) = true := by
      rcases hout with h | h <;> simp [h]
    simp [submit_review, hg, hany, hrp, hbad]
  · intro rating hrp h1 h5 hu2 hst hnone
    have hg : (b.userId != u || b.status != "completed") = false := by
      simp [hu2, hst]
    have hany : (reviews.any fun r => r.bookingId == b.id) = false := by
      rw [List.any_eq_false]
      intro r hr
      simp [hnone r hr]
    have hgood : (decide (rating < 1) || decide (rating > 5)) = false := by
      simp
      omega
    refine ⟨reviews ++
        [({ id := newId, bookingId := b.id, userId := u,
            providerId := b.providerId, rating := rating,
            comment := c } : Review)],
      { p with
        rating :=
          (((reviews ++
              [({ id := newId, bookingId := b.id, userId := u,
                  providerId := b.providerId, rating := rating,
                  comment := c } : Review)]).filter
                fun r => r.providerId == b.providerId).map
              fun r => (r.rating : ℚ)).sum /
            (((reviews ++
              [({ id := newId, bookingId := b.id, userId := u,
                  providerId := b.providerId, rating := rating,
                  comment := c } : Review)]).filter
                fun r => r.providerId == b.providerId).length : ℚ) },
      ?_, rfl, ?_, rfl, ?_⟩
    · simp [submit_review, hg, hany, hrp, hgood, hst, hu2]
    · rw [hp]
    · intro hzero
      rw [List.countP_append, hzero]
      simp

/-- C9 witness: gina reviews her completed booking with a 4; the
provider p9, who already had one 2-star review, ends with stored
rating 3, the mean of 2 and 4. -/
theorem c9_review_rules_witness :
    ∃ rs2 p2,
      submit_review "gina" c9_booking (some 4) "good" "rv1"
          [c9_other_review] c9_provider = (.ok, rs2, p2) ∧
      p2.rating = 3 := by
  obtain ⟨rs2, p2, heq, hrs, hrat, hpts, hcount⟩ :=
    (c9_review_rules "gina" c9_booking (some 4) "good" "rv1"
      [c9_other_review] c9_provider rfl).2.2.2 4 rfl (by norm_num)
      (by norm_num) rfl rfl
      (fun r hr => by
        simp only [List.mem_singleton] at hr
        rw [hr]
        decide)
  refine ⟨rs2, p2, heq, ?_⟩
  rw [hrat, hrs]
  norm_num [c9_other_review, c9_provider, c9_booking, List.filter]

/-- C8 counterexample: for the amount ₹0.29 the exact rupee amount
times 100 is 29, whose truncation is 29, yet `create_order` succeeds
reporting `amount_paise` 28 — `int(float(Decimal('0.29')) * 100)`
truncates the binary64 product `28.999999999999996`. -/
theorem c8_counterexample :
    c8_amount = 29 / 100 ∧
    c8_amount * 100 = 29 ∧
    (create_order c8_amount "INR" (Except.ok "order_1")).success = true ∧
    (create_order c8_amount "INR" (Except.ok "order_1")).amount_paise
      = some 28 := by
  refine ⟨?_, ?_, rfl, by decide⟩
  · rw [c8_amount, Rat.mk'_eq_divInt, Rat.divInt_eq_div]
    norm_num
  · rw [c8_amount, Rat.mk'_eq_divInt, Rat.divInt_eq_div]
    norm_num

/-- C8 (amended): no `PaymentService` operation propagates an
exception of the wrapped third-party call — each returns success
`false` with the error message (`verify_payment_signature` returns
`false`); on success `create_order` reports `amount_paise` equal to
`int(float(amount) * 100)`, the truncation of the binary64 product,
which for amounts not exactly representable in binary64 can be one
paisa below the exact rupee amount times 100; the conversion is exact
on binary64-representable amounts, e.g. ₹1500 → 150000. -/
theorem c8_no_exception_propagation :
    (∀ (amount : ℚ) (currency e : String),
      create_order amount currency (Except.error e) =
        { success := false, order_id := none, amount := none,
          amount_paise := none, currency := none, error := some e }) ∧
    (∀ (amount : ℚ) (currency oid : String),
      create_order amount currency (Except.ok oid) =
        { success := true, order_id := some oid, amount := some amount,
          amount_paise := some (amount_paise_of amount),
          currency := some currency, error := none }) ∧
    (∀ e sig, verify_payment_signature (Except.error e) sig = false) ∧
    (∀ g sig, verify_payment_signature (Except.ok g) sig = (g == sig)) ∧
    (∀ e, fetch_payment (Except.error e) = ⟨false, none, some e⟩) ∧
    (∀ (amount : ℚ) (e : String),
      capture_payment amount (Except.error e) = ⟨false, none, some e⟩) ∧
    (∀ (amount : Option ℚ) (e : String),
      refund_payment amount (Except.error e) = ⟨false, none, some e⟩) ∧
    (∀ e, get_order_payments (Except.error e) = ⟨false, none, some e⟩) ∧
    amount_paise_of 1500 = 150000 := by
  exact ⟨fun _ _ _ => rfl, fun _ _ _ => rfl, fun _ _ => rfl, fun _ _ => rfl,
    fun _ => rfl, fun _ _ => rfl, fun _ _ => rfl, fun _ => rfl, by decide⟩

/-- C7 helper: the slot loop visits exactly the arithmetic progression
of 30-minute steps below `end_time`. -/
theorem slotTimes_eq_steppedTimes (cur e : Nat) :
    slotTimes cur e = steppedTimes cur e := by
  have key : ∀ (n cur e : Nat), e - cur ≤ n →
      slotTimes cur e = steppedTimes cur e := by
    intro n
    induction n with
    | zero =>
      intro cur e h
      rw [slotTimes, steppedTimes]
      have hcur : ¬ cur < e := by omega
      rw [if_neg hcur]
      have h0 : (e - cur + 29) / 30 = 0 := by omega
      rw [h0]
      rfl
    | succ n ih =>
      intro cur e h
      rw [slotTimes, steppedTimes]
      by_cases hcur : cur < e
      · rw [if_pos hcur, ih (cur + 30) e (by omega), steppedTimes]
        have hn : (e - cur + 29) / 30 = (e - (cur + 30) + 29) / 30 + 1 := by
          omega
        rw [hn, List.range_succ_eq_map, List.map_cons, List.map_map]
        congr 1
        refine List.map_congr_left ?_
        intro a ha
        show cur + 30 + 30 * a = cur + 30 * (a + 1)
        omega
      · rw [if_neg hcur]
        have h0 : (e - cur + 29) / 30 = 0 := by omega
        rw [h0]
        rfl
  exact key (e - cur) cur e le_rfl

/-- C7 helper: one window's loop output is the formatted, unbooked
stepped times. -/
theorem generateSlots_eq (booked : List Nat) (cur e : Nat) :
    generateSlots booked cur e
      = ((slotTimes cur e).filter fun t => ! booked.contains t).map fmtHHMM := by
  have key : ∀ (n cur e : Nat), e - cur ≤ n → generateSlots booked cur e
      = ((slotTimes cur e).filter fun t => ! booked.contains t).map fmtHHMM := by
    intro n
    induction n with
    | zero =>
      intro cur e h
      rw [generateSlots, slotTimes]
      have hcur : ¬ cur < e := by omega
      rw [if_neg hcur, if_neg hcur]
      rfl
    | succ n ih =>
      intro cur e h
      rw [generateSlots, slotTimes]
      by_cases hcur : cur < e
      · rw [if_pos hcur, if_pos hcur, ih (cur + 30) e (by omega)]
        by_cases hm : cur ∈ booked
        · have hc : booked.contains cur = true := by simpa using hm
          simp [List.filter_cons, hc, hm]
        · have hc : booked.contains cur = false := by simpa using hm
          simp [List.filter_cons, hc, hm]
      · rw [if_neg hcur, if_neg hcur]
        rfl
  exact key (e - cur) cur e le_rfl

/-- C7 helper: accumulating appends across a list is one `flatMap`. -/
theorem foldl_append_eq_flatMap {α β : Type} (f : α → List β) :
    ∀ (l : List α) (init : List β),
      l.foldl (fun acc w => acc ++ f w) init = init ++ l.flatMap f := by
  intro l
  induction l with
  | nil => intro init; simp
  | cons a l ih => intro init; simp [ih]

/-- C7: on a date with no provider time off, `htmx_check_availability`
offers exactly the `%H:%M` times obtained by stepping in 30-minute
increments from each available weekday window's `start_time` up to but
excluding its `end_time`, omitting times already booked for that
provider and date in the statuses pending, payment_pending, confirmed,
accepted or in-progress; when that list is empty it instead offers the
default slots 09:00-17:00 minus the booked times; and with time off on
the date it offers no slots.  The hypothesis `end_time ≤ 1410` keeps
every window inside the domain where the source's slot loop
terminates. -/
theorem c7_slot_enumeration (provider : ProviderProfile)
    (rows : List ProviderAvailability) (timeOffRows : List ProviderTimeOff)
    (bookings : List Booking) (selected_date : Nat)
    (hterm : ∀ a ∈ rows, a.end_time ≤ 1410) :
    ((timeOffRows.any fun t =>
        t.providerId == provider.id && t.date == selected_date) = false →
      htmx_check_availability provider rows timeOffRows bookings selected_date
        = .slots
            (if (c7_offeredSlots provider rows bookings selected_date).isEmpty
              then c7_defaultSlots provider bookings selected_date
              else c7_offeredSlots provider rows bookings selected_date)) ∧
    ((timeOffRows.any fun t =>
        t.providerId == provider.id && t.date == selected_date) = true →
      htmx_check_availability provider rows timeOffRows bookings selected_date
        = .providerUnavailable) := by
  constructor
  · intro hoff
    simp only [htmx_check_availability, hoff, Bool.false_eq_true, if_false]
    have hflat : ∀ (ws : List ProviderAvailability) (booked : List Nat),
        ws.flatMap (fun w => generateSlots booked w.start_time w.end_time)
          = ((ws.flatMap fun w =>
              steppedTimes w.start_time w.end_time).filter fun t =>
                ! booked.contains t).map fmtHHMM := by
      intro ws booked
      rw [List.filter_flatMap, List.map_flatMap]
      exact List.flatMap_congr fun a ha => by
        rw [generateSlots_eq, slotTimes_eq_steppedTimes]
    rw [foldl_append_eq_flatMap, List.nil_append, hflat]
    rfl
  · intro hoff
    simp only [htmx_check_availability, hoff, if_true]

/-- C7 witness: the enumeration applied to a Monday 09:00-11:00 window
with 10:00 already booked on day 14. -/
theorem c7_slot_enumeration_witness :
    htmx_check_availability c7_provider [c7_window] [] [c7_booked] 14
      = AvailabilityResponse.slots ["09:00", "09:30", "10:30"] := by
  have h := (c7_slot_enumeration c7_provider [c7_window] [] [c7_booked] 14
    (by decide)).1 (by decide)
  rw [h]
  decide

/-- C10 witness: the characterization applied at concrete point values
600, -7 and 3200. -/
theorem c10_reward_tiers_witness :
    (get_provider_tier 600).min_points ≤ 600 ∧
    get_provider_tier (-7) = ⟨"Bronze", 0⟩ ∧
    get_next_tier 3200 = none := by
  refine ⟨((c10_reward_tiers 600).2.1 (by norm_num)).1,
    (c10_reward_tiers (-7)).2.2.1 (by norm_num),
    (c10_reward_tiers 3200).2.2.2.2 (by norm_num)⟩

end LegalPlatform
